import Mathlib

/-!
Shallow embedding of `nucleus/io/sam_reader.cc` (the SAM/BAM/CRAM reader of
the nucleus repository) together with theorems checking the claims of its
natural-language specification.

Bytes are modelled as `Nat` values `< 256`, byte buffers as `List Nat`,
C `int` arithmetic as `Int` with explicit two's-complement wrapping where
the C program can overflow, and pointers into a buffer as `Int` offsets.
Every raw memory read of the aux-field decoder goes through `auxByte`,
which yields `none` exactly when the C program would dereference outside
the buffer; the decoder surfaces that as the distinguished outcome
`AuxErr.oob`, so "the decoder reads out of bounds on this input" is the
provable statement `... .err = some .oob`.
-/

namespace Nucleus

/-! ### Flag constants from htslib/sam.h (used by sam_reader.cc) -/

def BAM_FPAIRED : Nat := 1

def BAM_FPROPER_PAIR : Nat := 2

def BAM_FUNMAP : Nat := 4

def BAM_FMUNMAP : Nat := 8

def BAM_FREVERSE : Nat := 16

def BAM_FMREVERSE : Nat := 32

def BAM_FREAD1 : Nat := 64

def BAM_FREAD2 : Nat := 128

def BAM_FSECONDARY : Nat := 256

def BAM_FQCFAIL : Nat := 512

def BAM_FDUP : Nat := 1024

def BAM_FSUPPLEMENTARY : Nat := 2048

/-! ### Small integer helpers (little-endian decoding, C int conversions) -/

/-- Two's-complement value of the low 32 bits of `n`, i.e. the value a C
`int` holds after an (implementation-defined / wrapping) conversion from an
expression computed modulo 2^32.  For `0 ≤ n < 2^31` this is `n` itself. -/
def asInt32 (n : Int) : Int := (n + 2 ^ 31) % 2 ^ 32 - 2 ^ 31

/-- Signed value of one byte read as C `int8_t`. -/
def asInt8 (n : Nat) : Int := if n < 2 ^ 7 then (n : Int) else (n : Int) - 2 ^ 8

/-- Signed value of a 16-bit little-endian quantity read as C `int16_t`. -/
def asInt16 (n : Nat) : Int := if n < 2 ^ 15 then (n : Int) else (n : Int) - 2 ^ 16

/-- htslib `le_to_u16`: 16-bit little-endian unsigned decode. -/
def leU16 (b0 b1 : Nat) : Nat := b0 + 2 ^ 8 * b1

/-- htslib `le_to_u32`: 32-bit little-endian unsigned decode. -/
def leU32 (b0 b1 b2 b3 : Nat) : Nat := b0 + 2 ^ 8 * b1 + 2 ^ 16 * b2 + 2 ^ 24 * b3

/-! ### The aux-field decoder (`HtslibAuxSize` / `ParseAuxFields`) -/

/-- Function `HtslibAuxSize` from sam_reader.cc: size in bytes of a SAM aux tag value
based on its declared type byte; `-1` indicates an unexpected type. -/
def HtslibAuxSize (t : Nat) : Int :=
  if t = 65 ∨ t = 99 ∨ t = 67 then 1        -- 'A', 'c', 'C'
  else if t = 115 ∨ t = 83 then 2           -- 's', 'S'
  else if t = 102 ∨ t = 105 ∨ t = 73 then 4 -- 'f', 'i', 'I'
  else -1

/-- Checked read of byte `p` of `buf`: `none` exactly when the address is
outside the buffer (before its start or past its end). -/
def auxByte (buf : List Nat) (p : Int) : Option Nat :=
  if 0 ≤ p then buf[p.toNat]? else none

/-- The two tag characters of an aux field, as the C code's
`string(reinterpret_cast<char*>(s), 2)`. -/
def tagStr (b1 b2 : Nat) : String := String.mk [Char.ofNat b1, Char.ofNat b2]

/-- A decoded aux value as stored by `SetInfoField`: a (1-character or
null-terminated) string, a C `int`, or a 4-byte float (kept as its raw
little-endian 32 bits, since no claim inspects the numeric float value). -/
inductive AuxVal where
  | str (s : String)
  | int (i : Int)
  | flt (bits : Nat)
deriving DecidableEq, Repr

/-- Failure modes of the decoder: a `tf::errors::DataLoss` with its message,
an out-of-bounds memory access (undefined behaviour in the C program), or
fuel exhaustion of the model (the C loop not terminating within the fuel). -/
inductive AuxErr where
  | dataLoss (msg : String)
  | oob
  | noFuel
deriving DecidableEq, Repr

/-- Result of the decoder: the `(tag, value)` pairs recorded by
`SetInfoField` in parse order, and `none` for an OK status or `some e`
for how decoding failed.  On failure `fields` still holds everything
decoded before the failure (the C code mutates `read_message` in place). -/
structure AuxOut where
  fields : List (String × AuxVal)
  err : Option AuxErr
deriving DecidableEq, Repr

/-- htslib `bam_aux2i` value decode for the integer types
'c','C','s','S','i','I'; the caller has already bounds-checked the
`HtslibAuxSize t` payload bytes starting at `p`. -/
def bam_aux2i (t : Nat) (buf : List Nat) (p : Nat) : Int :=
  if t = 99 then asInt8 (buf.getD p 0)
  else if t = 67 then (buf.getD p 0 : Int)
  else if t = 115 then asInt16 (leU16 (buf.getD p 0) (buf.getD (p + 1) 0))
  else if t = 83 then (leU16 (buf.getD p 0) (buf.getD (p + 1) 0) : Int)
  else asInt32 (leU32 (buf.getD p 0) (buf.getD (p + 1) 0)
      (buf.getD (p + 2) 0) (buf.getD (p + 3) 0))

/-- The loop body of `ParseAuxFields` in sam_reader.cc.  `s` is the byte
cursor (C pointer offset from the start of the aux region), `acc` the
fields recorded so far (most recent first), `fuel` a bound on the number
of loop iterations (the C loop need not terminate once a 'B' array count
with the high bit set has moved the cursor backwards).

Loop head: `while (end - s >= 4)`.  Cases follow the C `switch (type)`.
The 'B' case converts the unsigned 4-byte count to a C `int`
(`const int n_elements = le_to_u32(s)`) and advances the cursor by the
C-`int` expression `4 + n_elements * element_size` without any bounds
check on the array payload, exactly as the source does. -/
def parseAuxFrom (buf : List Nat) : Nat → Int → List (String × AuxVal) → AuxOut
  | 0, _, acc => ⟨acc.reverse, some .noFuel⟩
  | Nat.succ fuel, s, acc =>
    if (buf.length : Int) - s < 4 then ⟨acc.reverse, none⟩ else
    match auxByte buf s, auxByte buf (s + 1), auxByte buf (s + 2) with
    | some t1, some t2, some ty =>
      let tag := tagStr t1 t2
      let p := s + 3
      if ty = 65 then  -- 'A': single character, unchecked in C (guard covers it)
        match auxByte buf p with
        | some v => parseAuxFrom buf fuel (p + 1)
            ((tag, .str (String.mk [Char.ofNat v])) :: acc)
        | none => ⟨acc.reverse, some .oob⟩
      else if ty = 67 ∨ ty = 99 ∨ ty = 83 ∨ ty = 115 ∨ ty = 73 ∨ ty = 105 then
        let size := HtslibAuxSize ty
        if size < 0 ∨ (buf.length : Int) - p < size then
          ⟨acc.reverse, some (.dataLoss ("Malformed tag " ++ tag))⟩
        else
          -- `errno == EINVAL` cannot occur: the type byte is one bam_aux2i knows.
          parseAuxFrom buf fuel (p + size) ((tag, .int (bam_aux2i ty buf p.toNat)) :: acc)
      else if ty = 102 then  -- 'f'
        if (buf.length : Int) - p < 4 then
          ⟨acc.reverse, some (.dataLoss ("Malformed tag " ++ tag))⟩
        else
          parseAuxFrom buf fuel (p + 4)
            ((tag, .flt (leU32 (buf.getD p.toNat 0) (buf.getD (p.toNat + 1) 0)
                (buf.getD (p.toNat + 2) 0) (buf.getD (p.toNat + 3) 0))) :: acc)
      else if ty = 90 ∨ ty = 72 then  -- 'Z' / 'H': scan to the null terminator
        match (buf.drop p.toNat).findIdx? (fun b => b = 0) with
        | none => ⟨acc.reverse, some (.dataLoss ("Malformed tag " ++ tag))⟩
        | some k =>
          let value := String.mk (((buf.drop p.toNat).take k).map Char.ofNat)
          parseAuxFrom buf fuel (p + k + 1)
            (if ty = 90 then (tag, .str value) :: acc else acc)
      else if ty = 66 then  -- 'B': typed array, skipped without decoding
        match auxByte buf p with
        | none => ⟨acc.reverse, some .oob⟩
        | some sub =>
          let element_size := HtslibAuxSize sub
          if element_size < 0 then
            ⟨acc.reverse, some (.dataLoss ("element_size == 0 for tag " ++ tag))⟩
          else if (buf.length : Int) - (p + 1) < 4 then
            ⟨acc.reverse, some (.dataLoss ("data too short for tag " ++ tag))⟩
          else
            match auxByte buf (p + 1), auxByte buf (p + 2),
                auxByte buf (p + 3), auxByte buf (p + 4) with
            | some c0, some c1, some c2, some c3 =>
              let n_elements := asInt32 (leU32 c0 c1 c2 c3)
              if n_elements = 0 then ⟨acc.reverse, some (.dataLoss "n_elements is zero")⟩
              else
                parseAuxFrom buf fuel (p + 1 + asInt32 (4 + n_elements * element_size)) acc
            | _, _, _, _ => ⟨acc.reverse, some .oob⟩
      else ⟨acc.reverse, some (.dataLoss ("Unknown tag " ++ tag))⟩
    | _, _, _ => ⟨acc.reverse, some .oob⟩

/-- Aux-field handling mode from SamReaderOptions (reads.proto). -/
inductive AuxFieldHandling where
  | SKIP_AUX_FIELDS
  | PARSE_ALL_AUX_FIELDS
deriving DecidableEq, Repr

/-- The SamReaderOptions fields sam_reader.cc reads. -/
structure SamReaderOptions where
  aux_field_handling : AuxFieldHandling := .SKIP_AUX_FIELDS
  downsample_fraction : ℚ := 0
  random_seed : Nat := 0
  has_read_requirements : Bool := false
deriving DecidableEq

/-- One htslib `bam1_t` alignment record, flattened: the `bam1_core_t`
fields read by sam_reader.cc plus the variable-length arrays, already
unpacked from the htslib byte layout (`seqNibbles` lists the 4-bit base
codes that `bam_seqi` extracts, `cigarOps` the raw 32-bit cigar words,
`aux` the raw aux-region bytes `bam_get_aux(b) .. b->data + b->l_data`). -/
structure bam1_t where
  qname : String := ""
  flag : Nat := 0
  tid : Int := -1
  pos : Int := 0
  qual : Nat := 0
  mtid : Int := -1
  mpos : Int := 0
  isize : Int := 0
  seqNibbles : List Nat := []
  quals : List Nat := []
  cigarOps : List Nat := []
  aux : List Nat := []
deriving DecidableEq

/-- Function `ParseAuxFields` from sam_reader.cc: not-required parsing returns OK
with no fields; otherwise the cursor loop runs over the aux region.  The
fuel `aux.length + 1` is ample for every run of the C loop that terminates
(each iteration that keeps the cursor moving forward consumes ≥ 4 bytes). -/
def ParseAuxFields (b : bam1_t) (options : SamReaderOptions) : AuxOut :=
  if options.aux_field_handling ≠ .PARSE_ALL_AUX_FIELDS then ⟨[], none⟩
  else parseAuxFrom b.aux (b.aux.length + 1) 0 []

/-! ### The output record type (nucleus.genomics.v1.Read and friends) -/

/-- nucleus.genomics.v1.Position: proto3 submessage, so presence is
modelled with `Option` at each use site; all fields default. -/
structure Position where
  reference_name : String := ""
  position : Int := 0
  reverse_strand : Bool := false
deriving DecidableEq, Repr

/-- CigarUnit operation enumeration from cigar.proto. -/
inductive CigarOperation where
  | OPERATION_UNSPECIFIED
  | ALIGNMENT_MATCH
  | INSERT
  | DELETE
  | SKIP
  | CLIP_SOFT
  | CLIP_HARD
  | PAD
  | SEQUENCE_MATCH
  | SEQUENCE_MISMATCH
deriving DecidableEq, Repr

structure CigarUnit where
  operation : CigarOperation := .OPERATION_UNSPECIFIED
  operation_length : Nat := 0
deriving DecidableEq, Repr

structure LinearAlignment where
  mapping_quality : Nat := 0
  cigar : List CigarUnit := []
  position : Option Position := none
deriving DecidableEq, Repr

/-- The fields of nucleus.genomics.v1.Read that ConvertToPb populates.
Submessages are `Option` (proto3 message presence); `info` is the aux
tag → value mapping in insertion order. -/
structure Read where
  fragment_name : String := ""
  fragment_length : Int := 0
  proper_placement : Bool := false
  duplicate_fragment : Bool := false
  failed_vendor_quality_checks : Bool := false
  secondary_alignment : Bool := false
  supplementary_alignment : Bool := false
  read_number : Nat := 0
  number_reads : Nat := 0
  aligned_sequence : String := ""
  aligned_quality : List Nat := []
  alignment : Option LinearAlignment := none
  next_mate_position : Option Position := none
  info : List (String × AuxVal) := []
deriving DecidableEq, Repr

/-! ### ConvertToPb -/

/-- tensorflow error codes used by sam_reader.cc. -/
inductive TfCode where
  | FAILED_PRECONDITION
  | NOT_FOUND
  | DATA_LOSS
  | UNKNOWN
  | INTERNAL
  | INVALID_ARGUMENT
deriving DecidableEq, Repr

structure TfError where
  code : TfCode
  message : String
deriving DecidableEq, Repr

/-- The DataLoss error of the mate-consistency check in ConvertToPb (the C
message also appends the record's ShortDebugString, elided here). -/
def mateError : TfError :=
  ⟨.DATA_LOSS, "Expected mtid >= 0 as mate is supposedly mapped"⟩

/-- htslib `seq_nt16_str`: the 16-entry nucleotide code table. -/
def seq_nt16_str : List Char :=
  ['=', 'A', 'C', 'M', 'G', 'R', 'S', 'V', 'T', 'W', 'Y', 'H', 'K', 'D', 'B', 'N']

/-- Modelled from the spec: `kHtslibCigarToProto` lives in
nucleus/io/sam_utils.h, which is not under src/.  Spec §3/§4.2: each native
CIGAR op code is translated through a fixed op-code table into the
enumerated CigarUnit kind; htslib op-code order is MIDNSHP=X. -/
def kHtslibCigarToProto : List CigarOperation :=
  [.ALIGNMENT_MATCH, .INSERT, .DELETE, .SKIP, .CLIP_SOFT,
   .CLIP_HARD, .PAD, .SEQUENCE_MATCH, .SEQUENCE_MISMATCH]

/-- First phase of ConvertToPb: `read_message->Clear()` then the scalar
copies (name, length, flag booleans, pairing arithmetic). -/
def convBasic (b : bam1_t) : Read :=
  let paired := (b.flag &&& BAM_FPAIRED) != 0
  { fragment_name := b.qname
    fragment_length := b.isize
    proper_placement := (b.flag &&& BAM_FPROPER_PAIR) != 0
    duplicate_fragment := (b.flag &&& BAM_FDUP) != 0
    failed_vendor_quality_checks := (b.flag &&& BAM_FQCFAIL) != 0
    secondary_alignment := (b.flag &&& BAM_FSECONDARY) != 0
    supplementary_alignment := (b.flag &&& BAM_FSUPPLEMENTARY) != 0
    read_number := if (b.flag &&& BAM_FREAD1) != 0 || !paired then 0 else 1
    number_reads := if paired then 2 else 1 }

/-- Second phase: `if (c->l_qseq)` decode the packed sequence through
`seq_nt16_str` and, unless `quals[0] == 0xff`, the quality bytes. -/
def convSeqQual (b : bam1_t) (r : Read) : Read :=
  if b.seqNibbles.length ≠ 0 then
    let rseq :=
      { r with aligned_sequence :=
          String.mk (b.seqNibbles.map fun n => seq_nt16_str.getD (n &&& 15) '=') }
    if b.quals.getD 0 0 ≠ 255 then
      { rseq with aligned_quality :=
          (List.range b.seqNibbles.length).map fun i => b.quals.getD i 0 }
    else rseq
  else r

/-- Third phase: `if (!(c->flag & BAM_FUNMAP))` populate the alignment
submessage; within it `if (c->tid >= 0)` populate the Position. -/
def convAlignment (h : List String) (b : bam1_t) (r : Read) : Read :=
  if b.flag &&& BAM_FUNMAP = 0 then
    let la : LinearAlignment :=
      { mapping_quality := b.qual
        cigar := b.cigarOps.map fun w =>
          ⟨kHtslibCigarToProto.getD (w &&& 15) .OPERATION_UNSPECIFIED, w >>> 4⟩
        position :=
          if 0 ≤ b.tid then
            some ⟨h.getD b.tid.toNat "", b.pos, (b.flag &&& BAM_FREVERSE) != 0⟩
          else none }
    { r with alignment := some la }
  else r

/-- Outcome of ConvertToPb without the log-rate-limiting counter:
`status = none` is tensorflow OK, `some e` an error return; `read` is the
state of the caller's out-parameter `read_message` at the return point
(the C function mutates it in place, so it is populated even when an
error is returned); `auxFailed` records whether ParseAuxFields failed. -/
structure ConvResult where
  status : Option TfError
  read : Read
  auxFailed : Bool
deriving DecidableEq, Repr

/-- Function `ConvertToPb` from sam_reader.cc, minus the static log counter
(split into `ConvertToPb` below).  `h` is the header's
`target_name` table.  Note the C order in the mate block:
`mutable_next_mate_position()` creates the (default-valued) submessage
before the `mtid < 0` check returns the DataLoss error. -/
def ConvertToPbPure (h : List String) (b : bam1_t) (options : SamReaderOptions) :
    ConvResult :=
  let r3 := convAlignment h b (convSeqQual b (convBasic b))
  if (b.flag &&& BAM_FPAIRED) != 0 && (b.flag &&& BAM_FMUNMAP) == 0 then
    if b.mtid < 0 then
      { status := some mateError
        read := { r3 with next_mate_position := some {} }
        auxFailed := false }
    else
      let a := ParseAuxFields b options
      { status := none
        read := { r3 with
          next_mate_position :=
            some ⟨h.getD b.mtid.toNat "", b.mpos, (b.flag &&& BAM_FMREVERSE) != 0⟩
          info := a.fields }
        auxFailed := a.err.isSome }
  else
    let a := ParseAuxFields b options
    { status := none, read := { r3 with info := a.fields }, auxFailed := a.err.isSome }

/-- ConvertToPb with its (not thread safe) static counter modelled as
explicit state: `if (counter++ < 1) LOG(WARNING) ...` on an aux parsing
failure; `logged` records whether this call emitted the warning. -/
structure ConvOut where
  status : Option TfError
  read : Read
  counter : Nat
  logged : Bool
deriving DecidableEq, Repr

def ConvertToPb (h : List String) (b : bam1_t) (options : SamReaderOptions)
    (counter : Nat) : ConvOut :=
  let p := ConvertToPbPure h b options
  { status := p.status
    read := p.read
    counter := if p.auxFailed then counter + 1 else counter
    logged := p.auxFailed && decide (counter < 1) }

/-! ### Downsampler, KeepRead -/

/-- Modelled from the spec: `FractionalSampler` (nucleus/util/samplers.h)
is not under src/.  Spec §4.5: configured with a fraction in [0,1] and a
seed; `Keep()` returns true with probability ≈ fraction using the seeded
generator's state, advancing its internal state exactly once per call,
deterministic for a fixed seed and call sequence.  The generator is a
deterministic LCG stand-in producing a variate uniform on [0, 2^31); the
draw keeps iff variate / 2^31 < fraction (stated cross-multiplied). -/
structure FractionalSampler where
  fraction : ℚ
  state : Nat
deriving DecidableEq, Repr

/-- One step of the seeded generator. -/
def samplerNext (s : Nat) : Nat := (1103515245 * s + 12345) % 2 ^ 31

/-- Method `FractionalSampler::Keep()`: draw once, advance the state once. -/
def FractionalSampler.Keep (smp : FractionalSampler) : Bool × FractionalSampler :=
  (decide ((samplerNext smp.state : Int) * smp.fraction.den
      < smp.fraction.num * 2 ^ 31),
   { smp with state := samplerNext smp.state })

/-- Fresh sampler as built by the SamReader constructor:
`sampler_(options.downsample_fraction(), options.random_seed())`. -/
def mkSampler (options : SamReaderOptions) : FractionalSampler :=
  ⟨options.downsample_fraction, options.random_seed⟩

/-- Method `SamReader::KeepRead` from sam_reader.cc.  `reqSat` abstracts the
external `ReadSatisfiesRequirements(read, options.read_requirements())`
(nucleus/util, not under src/); C++ `&&`/`||` short-circuiting is modelled
exactly: the sampler is consulted (and its state advanced) only when the
requirements conjunct is true and the fraction is nonzero. -/
def KeepRead (options : SamReaderOptions) (reqSat : Read → Bool)
    (smp : FractionalSampler) (read : Read) : Bool × FractionalSampler :=
  if options.has_read_requirements && !(reqSat read) then (false, smp)
  else if options.downsample_fraction = 0 then (true, smp)
  else smp.Keep

/-- The sequence of keep/reject decisions `KeepRead` makes over a stream
of converted records, threading the sampler state exactly as the
iteration loop does ("one run" of the reader over a file). -/
def keepSequence (options : SamReaderOptions) (reqSat : Read → Bool) :
    FractionalSampler → List Read → List Bool
  | _, [] => []
  | smp, r :: rs =>
    let kr := KeepRead options reqSat smp r
    kr.1 :: keepSequence options reqSat kr.2 rs

/-! ### SamReader: Iterate and Query -/

/-- The loaded index handle `hts_idx_t*`.  Modelled from the spec: the
on-disk index structure is an external collaborator (§1, §6); all
sam_reader.cc observes of `sam_itr_queryi(idx_, tid, start, end)` is
whether it returns a cursor or null ("an interval rejected by the index"
→ not-found, spec §6/§7), captured by the predicate `queryValid`. -/
structure hts_idx_t where
  queryValid : Nat → Int → Int → Bool

/-- nucleus.genomics.v1.Range (proto field `end` renamed `endPos`). -/
structure Range where
  reference_name : String := ""
  start : Int := 0
  endPos : Int := 0
deriving DecidableEq, Repr

/-- htslib `bam_name2id`: resolve a reference name against the header's
target-name table, -1 if unknown. -/
def bam_name2id (targets : List String) (name : String) : Int :=
  match targets.findIdx? (fun t => t = name) with
  | some i => (i : Int)
  | none => -1

/-- The SamReader state that Iterate/Query/KeepRead consult: `fpOpen`
models `fp_ != nullptr` (false after `Close()`), `targets` the header's
`target_name` table, `idx` the `hts_idx_t*` (none when no index loaded). -/
structure SamReader where
  options : SamReaderOptions
  fpOpen : Bool
  targets : List String
  idx : Option hts_idx_t
  sampler : FractionalSampler

def SamReader.HasIndex (r : SamReader) : Bool := r.idx.isSome

/-- Method `SamReader::Iterate`: the only failure is the closed-reader
precondition; success hands out a full-file iterable (abstracted away). -/
def SamReader.Iterate (r : SamReader) : Option TfError :=
  if !r.fpOpen then some ⟨.FAILED_PRECONDITION, "Cannot Iterate a closed SamReader."⟩
  else none

/-- Method `SamReader::Query`: closed reader, missing index, unknown reference
name, and an interval the index rejects, in the source's order. -/
def SamReader.Query (r : SamReader) (region : Range) : Option TfError :=
  if !r.fpOpen then some ⟨.FAILED_PRECONDITION, "Cannot Query a closed SamReader."⟩
  else
    match r.idx with
    | none => some ⟨.FAILED_PRECONDITION, "Cannot query without an index"⟩
    | some idx =>
      let tid := bam_name2id r.targets region.reference_name
      if tid < 0 then some ⟨.NOT_FOUND, "Unknown reference_name"⟩
      else if idx.queryValid tid.toNat region.start region.endPos then none
      else some ⟨.NOT_FOUND, "region specifies an unknown reference interval"⟩

/-! ### The iteration engine: SamIterableBase::Next -/

/-- One outcome of the underlying cursor's `next_sam_record()`:
a successfully read raw record (code ≥ 0) or a read error (code < -1);
end-of-stream (code == -1) is modelled by the end of the outcome list. -/
inductive RawItem where
  | record (b : bam1_t)
  | readError
deriving DecidableEq

/-- Result of one `Next(out)` call: a yielded record (`StatusOr true`),
end of stream (`StatusOr false`), or an error status. -/
inductive NextRes where
  | yes (r : Read)
  | atEnd
  | failure (e : TfError)
deriving DecidableEq

/-- The do-while loop of `SamIterableBase::Next`: pull a raw record
(end-of-list = code -1 → return false; read error → DataLoss), convert it
(an error from ConvertToPb propagates via TF_RETURN_IF_ERROR), and loop
until `sam_reader->KeepRead(*out)` accepts. -/
def nextLoop (h : List String) (options : SamReaderOptions) (reqSat : Read → Bool) :
    List RawItem → FractionalSampler → NextRes × FractionalSampler
  | [], smp => (.atEnd, smp)
  | .readError :: _, smp => (.failure ⟨.DATA_LOSS, "Failed to parse SAM record"⟩, smp)
  | .record b :: rest, smp =>
    let conv := ConvertToPbPure h b options
    match conv.status with
    | some e => (.failure e, smp)
    | none =>
      let kr := KeepRead options reqSat smp conv.read
      if kr.1 then (.yes conv.read, kr.2)
      else nextLoop h options reqSat rest kr.2

/-- Method `SamIterableBase::Next` including the `CheckIsAlive()` guard of the
iterable base class (nucleus/io/reader_base, not under src/; modelled from
the spec's precondition policy §7: operating on a released iterable is a
precondition violation). -/
def SamIterableBase.Next (alive : Bool) (h : List String) (options : SamReaderOptions)
    (reqSat : Read → Bool) (stream : List RawItem) (smp : FractionalSampler) :
    NextRes × FractionalSampler :=
  if !alive then (.failure ⟨.FAILED_PRECONDITION, "Iterable is not alive"⟩, smp)
  else nextLoop h options reqSat stream smp

/-! ### The header parser

C++ strings are modelled as `List Char` (`Str`) so that splitting,
`substr` and integer parsing are structurally recursive and can be
evaluated by the kernel.  `std::string::substr(pos)` throws
`std::out_of_range` when `pos > size()`, and `CHECK(...)` aborts the
process; both fatal events are modelled as the `CppError` outcomes of the
parsing functions. -/

abbrev Str := List Char

/-- A fatal event while parsing the header: an uncaught
`std::out_of_range` from `substr`, or a failed `CHECK`. -/
inductive CppError where
  | outOfRange
  | checkFail
deriving DecidableEq, Repr

/-- Function `absl::StrSplit(s, c)`: split on every occurrence of `c`; the empty
string yields one empty piece, a trailing separator an empty last piece. -/
def strSplit (c : Char) : Str → List Str
  | [] => [[]]
  | x :: xs =>
    match strSplit c xs with
    | [] => [[x]]
    | h :: t => if x = c then [] :: h :: t else (x :: h) :: t

/-- Function `std::string::substr(p)`: suffix from byte `p`, throwing
`std::out_of_range` when `p > size()`. -/
def substrFrom (s : Str) (p : Nat) : Except CppError Str :=
  if p ≤ s.length then .ok (s.drop p) else .error .outOfRange

/-- Function `absl::SimpleAtoi`: parse the whole token as a (signed) decimal
integer, failing on anything else.  (The C++ version also range-checks
against the destination type; no claim depends on that.) -/
def digitsToNat : Str → Option Nat
  | [] => none
  | cs => cs.foldl (fun acc? c => match acc? with
      | none => none
      | some acc => if c.isDigit then some (acc * 10 + (c.toNat - 48)) else none)
      (some 0)

def SimpleAtoi (cs : Str) : Option Int :=
  match cs with
  | '-' :: rest => (digitsToNat rest).map (fun n => -(n : Int))
  | '+' :: rest => (digitsToNat rest).map (fun n => (n : Int))
  | _ => (digitsToNat cs).map (fun n => (n : Int))

/-! Header line-type and sub-tag constants.  Modelled from the spec:
they live in nucleus/io/sam_utils.h, which is not under src/; spec §6:
3-character line-type prefixes `@HD` `@SQ` `@RG` `@PG` `@CO` and
3-character sub-tags including the colon, e.g. `VN:`. -/

def kSamHeaderTag : Str := ['@', 'H', 'D']

def kSamReferenceSequenceTag : Str := ['@', 'S', 'Q']

def kSamReadGroupTag : Str := ['@', 'R', 'G']

def kSamProgramTag : Str := ['@', 'P', 'G']

def kSamCommentTag : Str := ['@', 'C', 'O']

def kVNTag : Str := ['V', 'N', ':']

def kSOTag : Str := ['S', 'O', ':']

def kGOTag : Str := ['G', 'O', ':']

def kIDTag : Str := ['I', 'D', ':']

def kCNTag : Str := ['C', 'N', ':']

def kDSTag : Str := ['D', 'S', ':']

def kDTTag : Str := ['D', 'T', ':']

def kFOTag : Str := ['F', 'O', ':']

def kKSTag : Str := ['K', 'S', ':']

def kLBTag : Str := ['L', 'B', ':']

def kPGTag : Str := ['P', 'G', ':']

def kPITag : Str := ['P', 'I', ':']

def kPLTag : Str := ['P', 'L', ':']

def kPMTag : Str := ['P', 'M', ':']

def kPUTag : Str := ['P', 'U', ':']

def kSMTag : Str := ['S', 'M', ':']

def kPNTag : Str := ['P', 'N', ':']

def kCLTag : Str := ['C', 'L', ':']

def kPPTag : Str := ['P', 'P', ':']

/-! The structured header (nucleus.genomics.v1.SamHeader). -/

inductive SortingOrder where
  | SO_UNKNOWN
  | COORDINATE
  | QUERYNAME
  | UNSORTED
deriving DecidableEq, Repr

inductive AlignmentGrouping where
  | NONE
  | QUERY
  | REFERENCE
deriving DecidableEq, Repr

structure ReadGroup where
  name : Str := []
  sequencing_center : Str := []
  description : Str := []
  date : Str := []
  flow_order : Str := []
  key_sequence : Str := []
  library_id : Str := []
  program_ids : List Str := []
  predicted_insert_size : Int := 0
  platform : Str := []
  platform_model : Str := []
  platform_unit : Str := []
  sample_id : Str := []
deriving DecidableEq, Repr

structure Program where
  id : Str := []
  name : Str := []
  command_line : Str := []
  prev_program_id : Str := []
  description : Str := []
  version : Str := []
deriving DecidableEq, Repr

structure ContigInfo where
  name : Str := []
  n_bases : Nat := 0
  pos_in_fasta : Nat := 0
deriving DecidableEq, Repr

structure SamHeader where
  format_version : Str := []
  sorting_order : SortingOrder := .SO_UNKNOWN
  alignment_grouping : AlignmentGrouping := .NONE
  read_groups : List ReadGroup := []
  programs : List Program := []
  comments : List Str := []
  contigs : List ContigInfo := []
deriving DecidableEq, Repr

/-- Token loop of `AddHeaderLineToHeader`: the `@HD` token is skipped;
otherwise `tag = token.substr(0, 3)` (clamping, never throws) and
`value = token.substr(3)` (throws when the token is shorter than 3).
Unknown sorting orders / groupings / tags add a warning marker. -/
def hdLineLoop : SamHeader → List String → List Str →
    Except CppError (SamHeader × List String)
  | hd, warn, [] => .ok (hd, warn)
  | hd, warn, token :: rest =>
    if token = kSamHeaderTag then hdLineLoop hd warn rest
    else
      match substrFrom token 3 with
      | .error e => .error e
      | .ok value =>
        let tag := token.take 3
        if tag = kVNTag then hdLineLoop { hd with format_version := value } warn rest
        else if tag = kSOTag then
          if value = ['c','o','o','r','d','i','n','a','t','e'] then
            hdLineLoop { hd with sorting_order := .COORDINATE } warn rest
          else if value = ['q','u','e','r','y','n','a','m','e'] then
            hdLineLoop { hd with sorting_order := .QUERYNAME } warn rest
          else if value = ['u','n','k','n','o','w','n'] then
            hdLineLoop { hd with sorting_order := .SO_UNKNOWN } warn rest
          else if value = ['u','n','s','o','r','t','e','d'] then
            hdLineLoop { hd with sorting_order := .UNSORTED } warn rest
          else
            hdLineLoop { hd with sorting_order := .SO_UNKNOWN }
              (warn ++ ["Unknown sorting order, defaulting to unknown"]) rest
        else if tag = kGOTag then
          if value = ['n','o','n','e'] then
            hdLineLoop { hd with alignment_grouping := .NONE } warn rest
          else if value = ['q','u','e','r','y'] then
            hdLineLoop { hd with alignment_grouping := .QUERY } warn rest
          else if value = ['r','e','f','e','r','e','n','c','e'] then
            hdLineLoop { hd with alignment_grouping := .REFERENCE } warn rest
          else
            hdLineLoop { hd with alignment_grouping := .NONE }
              (warn ++ ["Unknown alignment grouping, defaulting to none"]) rest
        else if tag = kSamHeaderTag then hdLineLoop hd warn rest
        else hdLineLoop hd (warn ++ ["Unknown tag in header line, ignoring"]) rest

/-- Function `AddHeaderLineToHeader` from sam_reader.cc. -/
def AddHeaderLineToHeader (line : Str) (hd : SamHeader) (warn : List String) :
    Except CppError (SamHeader × List String) :=
  hdLineLoop hd warn (strSplit '\t' line)

/-- Token loop of `AddReadGroupToHeader`.  The `PI:` value goes through
`CHECK(absl::SimpleAtoi(value, &size))`: a non-numeric value aborts. -/
def rgLineLoop : ReadGroup → List String → List Str →
    Except CppError (ReadGroup × List String)
  | rg, warn, [] => .ok (rg, warn)
  | rg, warn, token :: rest =>
    if token = kSamReadGroupTag then rgLineLoop rg warn rest
    else
      match substrFrom token 3 with
      | .error e => .error e
      | .ok value =>
        let tag := token.take 3
        if tag = kIDTag then rgLineLoop { rg with name := value } warn rest
        else if tag = kCNTag then rgLineLoop { rg with sequencing_center := value } warn rest
        else if tag = kDSTag then rgLineLoop { rg with description := value } warn rest
        else if tag = kDTTag then rgLineLoop { rg with date := value } warn rest
        else if tag = kFOTag then rgLineLoop { rg with flow_order := value } warn rest
        else if tag = kKSTag then rgLineLoop { rg with key_sequence := value } warn rest
        else if tag = kLBTag then rgLineLoop { rg with library_id := value } warn rest
        else if tag = kPGTag then
          rgLineLoop { rg with program_ids := rg.program_ids ++ [value] } warn rest
        else if tag = kPITag then
          match SimpleAtoi value with
          | none => .error .checkFail
          | some size => rgLineLoop { rg with predicted_insert_size := size } warn rest
        else if tag = kPLTag then rgLineLoop { rg with platform := value } warn rest
        else if tag = kPMTag then rgLineLoop { rg with platform_model := value } warn rest
        else if tag = kPUTag then rgLineLoop { rg with platform_unit := value } warn rest
        else if tag = kSMTag then rgLineLoop { rg with sample_id := value } warn rest
        else rgLineLoop rg (warn ++ ["Unknown tag in RG line, ignoring"]) rest

/-- Function `AddReadGroupToHeader` from sam_reader.cc (populates a fresh group
appended by the caller). -/
def AddReadGroupToHeader (line : Str) : Except CppError (ReadGroup × List String) :=
  rgLineLoop {} [] (strSplit '\t' line)

/-- Token loop of `AddProgramToHeader`.  Note the source has no `else`
branch: unknown tags are silently ignored here, with no warning. -/
def pgLineLoop : Program → List Str → Except CppError Program
  | pg, [] => .ok pg
  | pg, token :: rest =>
    if token = kSamProgramTag then pgLineLoop pg rest
    else
      match substrFrom token 3 with
      | .error e => .error e
      | .ok value =>
        let tag := token.take 3
        if tag = kIDTag then pgLineLoop { pg with id := value } rest
        else if tag = kPNTag then pgLineLoop { pg with name := value } rest
        else if tag = kCLTag then pgLineLoop { pg with command_line := value } rest
        else if tag = kPPTag then pgLineLoop { pg with prev_program_id := value } rest
        else if tag = kDSTag then pgLineLoop { pg with description := value } rest
        else if tag = kVNTag then pgLineLoop { pg with version := value } rest
        else pgLineLoop pg rest

/-- Function `AddProgramToHeader` from sam_reader.cc. -/
def AddProgramToHeader (line : Str) : Except CppError Program :=
  pgLineLoop {} (strSplit '\t' line)

/-- One line of the SamReader-constructor dispatch:
`header_tag = header_line.substr(0, 3)` (clamping), then dispatch on the
five known line types; `@CO` takes `header_line.substr(4)` (throws on a
line shorter than 4 bytes); anything else is a logged warning. -/
def samHeaderLineStep (st : SamHeader × List String) (line : Str) :
    Except CppError (SamHeader × List String) :=
  let tag := line.take 3
  if tag = kSamHeaderTag then
    AddHeaderLineToHeader line st.1 st.2
  else if tag = kSamReferenceSequenceTag then .ok st
  else if tag = kSamReadGroupTag then
    match AddReadGroupToHeader line with
    | .error e => .error e
    | .ok (rg, w) => .ok ({ st.1 with read_groups := st.1.read_groups ++ [rg] }, st.2 ++ w)
  else if tag = kSamProgramTag then
    match AddProgramToHeader line with
    | .error e => .error e
    | .ok pg => .ok ({ st.1 with programs := st.1.programs ++ [pg] }, st.2)
  else if tag = kSamCommentTag then
    match substrFrom line 4 with
    | .error e => .error e
    | .ok c => .ok ({ st.1 with comments := st.1.comments ++ [c] }, st.2)
  else .ok (st.1, st.2 ++ ["Unrecognized SAM header type, ignoring"])

def samHeaderLines : SamHeader × List String → List Str →
    Except CppError (SamHeader × List String)
  | st, [] => .ok st
  | st, line :: rest =>
    match samHeaderLineStep st line with
    | .error e => .error e
    | .ok st' => samHeaderLines st' rest

/-- The header-parsing part of the SamReader constructor: split
`header_->text` on newlines and dispatch each line. -/
def parseSamHeaderText (text : Str) : Except CppError (SamHeader × List String) :=
  samHeaderLines ({}, []) (strSplit '\n' text)

/-- The full constructor header build: parse the text, then fill in one
ContigInfo per header target (name, length, position in the table). -/
def SamReaderBuildHeader (text : Str) (targets : List (Str × Nat)) :
    Except CppError (SamHeader × List String) :=
  match parseSamHeaderText text with
  | .error e => .error e
  | .ok (hd, w) =>
    .ok ({ hd with contigs :=
      (List.range targets.length).map fun i =>
        ⟨(targets.getD i ([], 0)).1, (targets.getD i ([], 0)).2, i⟩ }, w)

/-- Sufficient safety condition on one header line for its parsing to be
non-fatal: a recognized `@HD`/`@RG`/`@PG` line must consist of tokens of
at least 3 characters (besides the line-type token itself), an `@RG`
`PI:` value must be numeric, and an `@CO` line must be at least 4
characters long; `@SQ` lines and unknown line types are always safe. -/
def headerLineSafe (line : Str) : Bool :=
  let tag := line.take 3
  if tag = kSamHeaderTag then
    (strSplit '\t' line).all fun t => t == kSamHeaderTag || decide (3 ≤ t.length)
  else if tag = kSamReferenceSequenceTag then true
  else if tag = kSamReadGroupTag then
    (strSplit '\t' line).all fun t =>
      t == kSamReadGroupTag ||
        (decide (3 ≤ t.length) &&
          (!(t.take 3 == kPITag) || (SimpleAtoi (t.drop 3)).isSome))
  else if tag = kSamProgramTag then
    (strSplit '\t' line).all fun t => t == kSamProgramTag || decide (3 ≤ t.length)
  else if tag = kSamCommentTag then decide (4 ≤ line.length)
  else true

/-! ## Helper lemmas about the conversion phases -/

lemma convSeqQual_next_mate_position (b : bam1_t) (r : Read) :
    (convSeqQual b r).next_mate_position = r.next_mate_position := by
  simp only [convSeqQual]
  split_ifs <;> rfl

lemma convSeqQual_alignment (b : bam1_t) (r : Read) :
    (convSeqQual b r).alignment = r.alignment := by
  simp only [convSeqQual]
  split_ifs <;> rfl

lemma convSeqQual_fragment_name (b : bam1_t) (r : Read) :
    (convSeqQual b r).fragment_name = r.fragment_name := by
  simp only [convSeqQual]
  split_ifs <;> rfl

lemma convSeqQual_number_reads (b : bam1_t) (r : Read) :
    (convSeqQual b r).number_reads = r.number_reads := by
  simp only [convSeqQual]
  split_ifs <;> rfl

lemma convSeqQual_info (b : bam1_t) (r : Read) :
    (convSeqQual b r).info = r.info := by
  simp only [convSeqQual]
  split_ifs <;> rfl

lemma convAlignment_next_mate_position (h : List String) (b : bam1_t) (r : Read) :
    (convAlignment h b r).next_mate_position = r.next_mate_position := by
  simp only [convAlignment]
  split_ifs <;> rfl

lemma convAlignment_fragment_name (h : List String) (b : bam1_t) (r : Read) :
    (convAlignment h b r).fragment_name = r.fragment_name := by
  simp only [convAlignment]
  split_ifs <;> rfl

lemma convAlignment_number_reads (h : List String) (b : bam1_t) (r : Read) :
    (convAlignment h b r).number_reads = r.number_reads := by
  simp only [convAlignment]
  split_ifs <;> rfl

lemma convAlignment_info (h : List String) (b : bam1_t) (r : Read) :
    (convAlignment h b r).info = r.info := by
  simp only [convAlignment]
  split_ifs <;> rfl

lemma convAlignment_aligned_sequence (h : List String) (b : bam1_t) (r : Read) :
    (convAlignment h b r).aligned_sequence = r.aligned_sequence := by
  simp only [convAlignment]
  split_ifs <;> rfl

lemma convAlignment_aligned_quality (h : List String) (b : bam1_t) (r : Read) :
    (convAlignment h b r).aligned_quality = r.aligned_quality := by
  simp only [convAlignment]
  split_ifs <;> rfl

/-- The alignment submessage after phase three, spelled out. -/
lemma convAlignment_alignment (h : List String) (b : bam1_t) (r : Read) :
    (convAlignment h b r).alignment =
      if b.flag &&& BAM_FUNMAP = 0 then
        some
          { mapping_quality := b.qual
            cigar := b.cigarOps.map fun w =>
              ⟨kHtslibCigarToProto.getD (w &&& 15) .OPERATION_UNSPECIFIED, w >>> 4⟩
            position :=
              if 0 ≤ b.tid then
                some ⟨h.getD b.tid.toNat "", b.pos, (b.flag &&& BAM_FREVERSE) != 0⟩
              else none }
      else r.alignment := by
  simp only [convAlignment]
  split_ifs <;> rfl

/-- The record going into the mate block has no next-mate position yet. -/
lemma conv3_next_mate_none (h : List String) (b : bam1_t) :
    (convAlignment h b (convSeqQual b (convBasic b))).next_mate_position = none := by
  rw [convAlignment_next_mate_position, convSeqQual_next_mate_position]
  rfl

/-- The out-record's alignment is decided entirely by phase three: none of
the return paths of ConvertToPb touch it again. -/
lemma ConvertToPbPure_alignment (h : List String) (b : bam1_t)
    (options : SamReaderOptions) :
    (ConvertToPbPure h b options).read.alignment =
      (convAlignment h b (convSeqQual b (convBasic b))).alignment := by
  simp only [ConvertToPbPure]
  split_ifs <;> rfl

/-! ## Claims -/

/-- Claim C1: The claim: the aux decoder never reads past the buffer bound
under any input, and any truncated aux stream fails with a data-loss
error, including truncation inside a 'B' array payload after its sub-type
and count were read.  Evaluating the embedded decoder refutes this:
(1) aux bytes `X1 B c 00 00 00 80` — a 'B' field whose little-endian
count is 0x80000000 — make the C `int n_elements` negative, the cursor
is moved before the start of the buffer, and the next loop iteration
reads out of bounds (`.oob`);
(2) aux bytes `X1 B c 02 00 00 00 37` — a 'B' array of two `int8` elements
truncated after one payload byte — decode with an OK status because the
payload skip is never bounds-checked;
(3) aux bytes `X1 A` — a stream whose last field is missing its one
required value byte — decode with an OK status because the loop exits
as soon as fewer than 4 bytes remain. -/
theorem claim_C1_decoder_unsafe :
    (ParseAuxFields { aux := [88, 49, 66, 99, 0, 0, 0, 128] }
        { aux_field_handling := .PARSE_ALL_AUX_FIELDS }).err = some .oob ∧
    ParseAuxFields { aux := [88, 49, 66, 99, 2, 0, 0, 0, 55] }
        { aux_field_handling := .PARSE_ALL_AUX_FIELDS } = ⟨[], none⟩ ∧
    ParseAuxFields { aux := [88, 49, 65] }
        { aux_field_handling := .PARSE_ALL_AUX_FIELDS } = ⟨[], none⟩ :=
  ⟨rfl, rfl, rfl⟩

/-- Claim C2: For every record: on a successful conversion the output's
next-mate-position is present iff the record is paired and its mate is
not flagged unmapped; and a paired, mate-mapped record with a negative
mate reference index fails with the data-loss mate error instead of
silently emitting a defaulted mate position. -/
theorem claim_C2_next_mate_position (h : List String) (b : bam1_t)
    (options : SamReaderOptions) :
    ((ConvertToPbPure h b options).status = none →
      ((ConvertToPbPure h b options).read.next_mate_position.isSome = true ↔
        (b.flag &&& BAM_FPAIRED ≠ 0 ∧ b.flag &&& BAM_FMUNMAP = 0))) ∧
    (b.flag &&& BAM_FPAIRED ≠ 0 → b.flag &&& BAM_FMUNMAP = 0 → b.mtid < 0 →
      (ConvertToPbPure h b options).status = some mateError) := by
  by_cases hc : ((b.flag &&& BAM_FPAIRED) != 0 && (b.flag &&& BAM_FMUNMAP) == 0) = true
  · have hpm : b.flag &&& BAM_FPAIRED ≠ 0 ∧ b.flag &&& BAM_FMUNMAP = 0 := by
      simpa [Bool.and_eq_true, bne_iff_ne, beq_iff_eq] using hc
    by_cases hm : b.mtid < 0
    · constructor
      · intro hok
        exfalso
        simp only [ConvertToPbPure, hc, if_true, if_pos hm] at hok
        exact Option.noConfusion hok
      · intro _ _ _
        simp only [ConvertToPbPure, hc, if_true, if_pos hm]
    · constructor
      · intro _
        simp only [ConvertToPbPure, hc, if_true, if_neg hm]
        simpa using hpm
      · intro _ _ hm'
        exact absurd hm' hm
  · have hpm : ¬(b.flag &&& BAM_FPAIRED ≠ 0 ∧ b.flag &&& BAM_FMUNMAP = 0) := by
      intro hand
      exact hc (by simp [Bool.and_eq_true, bne_iff_ne, beq_iff_eq, hand.1, hand.2])
    constructor
    · intro _
      simp only [ConvertToPbPure, hc, if_false]
      simp only [conv3_next_mate_none]
      simpa using hpm
    · intro h1 h2 _
      exact absurd ⟨h1, h2⟩ hpm

/-- Witness for claim C2: a paired, mate-mapped record with `mtid = -1` fails with
the mate data-loss error. -/
theorem claim_C2_witness :
    (ConvertToPbPure ["chr1"] { flag := 1, mtid := -1 } {}).status = some mateError :=
  (claim_C2_next_mate_position ["chr1"] { flag := 1, mtid := -1 } {}).2
    (by decide) (by decide) (by decide)

/-- Counterexample for claim C3: the claim also asserts that every record with a
mapped alignment has both a Position and a mapping quality.  A record
whose `unmapped` flag is clear but whose reference index `tid` is
negative converts successfully to a record with an alignment (carrying
the mapping quality) and *no* Position, refuting the claim at this
concrete input. -/
theorem claim_C3_counterexample :
    (ConvertToPbPure ["chr1"] { qname := "frag", flag := 0, tid := -1, qual := 7 }
        {}).status = none ∧
    (ConvertToPbPure ["chr1"] { qname := "frag", flag := 0, tid := -1, qual := 7 }
        {}).read.alignment =
      some { mapping_quality := 7, cigar := [], position := none } :=
  ⟨rfl, rfl⟩

/-- Claim C3 as amended: for every successfully converted record the output's
mapped-alignment submessage is present iff the source's `unmapped` flag
is clear; the alignment always carries the record's mapping quality, and
it contains a Position iff the reference index `tid` is non-negative
(so a record with `tid < 0` yields an alignment without a Position). -/
theorem claim_C3_alignment_presence (h : List String) (b : bam1_t)
    (options : SamReaderOptions)
    (_hok : (ConvertToPbPure h b options).status = none) :
    ((ConvertToPbPure h b options).read.alignment.isSome = true ↔
      b.flag &&& BAM_FUNMAP = 0) ∧
    (∀ la, (ConvertToPbPure h b options).read.alignment = some la →
      la.mapping_quality = b.qual ∧ (la.position.isSome = true ↔ 0 ≤ b.tid)) := by
  rw [ConvertToPbPure_alignment, convAlignment_alignment, convSeqQual_alignment]
  by_cases hu : b.flag &&& BAM_FUNMAP = 0
  · rw [if_pos hu]
    refine ⟨by simpa using hu, ?_⟩
    intro la hla
    obtain rfl : la = _ := (Option.some_injective _ hla.symm)
    refine ⟨rfl, ?_⟩
    by_cases ht : 0 ≤ b.tid
    · simp [ht]
    · simp [ht]
  · rw [if_neg hu]
    have : (convBasic b).alignment = none := rfl
    rw [this]
    refine ⟨by simpa using hu, ?_⟩
    intro la hla
    exact Option.noConfusion hla

/-- Witness for amended claim C3: an unmapped-flagged record converts with no
alignment submessage. -/
theorem claim_C3_alignment_presence_witness :
    ((ConvertToPbPure ["chr1"] { flag := 4 } {}).read.alignment.isSome = true ↔
      (4 : Nat) &&& BAM_FUNMAP = 0) :=
  (claim_C3_alignment_presence ["chr1"] { flag := 4 } {} (by decide)).1

/-- Claim C4: A record whose aux-field byte stream fails to decode (and which
does not hit the earlier mate-consistency error) still converts
successfully: the status is OK, the record carries exactly the aux fields
decoded before the failure, the (static) log counter is bumped once, and
the warning is actually emitted iff the counter had not yet reached the
rate limit (`counter++ < 1`). -/
theorem claim_C4_aux_failure_not_fatal (h : List String) (b : bam1_t)
    (options : SamReaderOptions) (counter : Nat)
    (hm : ¬(b.flag &&& BAM_FPAIRED ≠ 0 ∧ b.flag &&& BAM_FMUNMAP = 0 ∧ b.mtid < 0))
    (hfail : (ParseAuxFields b options).err.isSome = true) :
    (ConvertToPb h b options counter).status = none ∧
    (ConvertToPb h b options counter).read.info = (ParseAuxFields b options).fields ∧
    (ConvertToPb h b options counter).counter = counter + 1 ∧
    ((ConvertToPb h b options counter).logged = true ↔ counter < 1) := by
  have key : (ConvertToPbPure h b options).status = none ∧
      (ConvertToPbPure h b options).read.info = (ParseAuxFields b options).fields ∧
      (ConvertToPbPure h b options).auxFailed = (ParseAuxFields b options).err.isSome := by
    by_cases hc : ((b.flag &&& BAM_FPAIRED) != 0 && (b.flag &&& BAM_FMUNMAP) == 0) = true
    · have hpm : b.flag &&& BAM_FPAIRED ≠ 0 ∧ b.flag &&& BAM_FMUNMAP = 0 := by
        simpa [Bool.and_eq_true, bne_iff_ne, beq_iff_eq] using hc
      have hmt : ¬b.mtid < 0 := fun hlt => hm ⟨hpm.1, hpm.2, hlt⟩
      simp only [ConvertToPbPure, hc, if_true, if_neg hmt]
      refine ⟨?_, ?_, ?_⟩ <;> trivial
    · simp only [ConvertToPbPure, hc, if_false]
      refine ⟨?_, ?_, ?_⟩ <;> trivial
  refine ⟨?_, ?_, ?_, ?_⟩
  · simpa [ConvertToPb] using key.1
  · simpa [ConvertToPb] using key.2.1
  · simp [ConvertToPb, key.2.2, hfail]
  · simp [ConvertToPb, key.2.2, hfail]

/-- Witness for claim C4: a record with a truncated `X1:i` aux field (data-loss in
the decoder) is still converted with OK status and, here, no decoded aux
fields; the first such failure is logged. -/
theorem claim_C4_witness :
    (ConvertToPb [] { aux := [88, 49, 105, 5, 0, 0] }
        { aux_field_handling := .PARSE_ALL_AUX_FIELDS } 0).status = none ∧
    (ConvertToPb [] { aux := [88, 49, 105, 5, 0, 0] }
        { aux_field_handling := .PARSE_ALL_AUX_FIELDS } 0).read.info =
      (ParseAuxFields { aux := [88, 49, 105, 5, 0, 0] }
        { aux_field_handling := .PARSE_ALL_AUX_FIELDS }).fields ∧
    (ConvertToPb [] { aux := [88, 49, 105, 5, 0, 0] }
        { aux_field_handling := .PARSE_ALL_AUX_FIELDS } 0).counter = 0 + 1 ∧
    ((ConvertToPb [] { aux := [88, 49, 105, 5, 0, 0] }
        { aux_field_handling := .PARSE_ALL_AUX_FIELDS } 0).logged = true ↔ 0 < 1) :=
  claim_C4_aux_failure_not_fatal [] { aux := [88, 49, 105, 5, 0, 0] }
    { aux_field_handling := .PARSE_ALL_AUX_FIELDS } 0 (by decide) (by decide)

lemma convBasic_number_reads (b : bam1_t) :
    (convBasic b).number_reads = if (b.flag &&& BAM_FPAIRED) != 0 then 2 else 1 := rfl

/-- Claim C10: Conversion is not atomic on error: when the mate-inconsistency
data-loss error is returned (paired, mate-mapped, negative `mtid`), the
out-record has already been cleared and partially populated — here shown
for a record with a sequence, qualities and a mapped alignment: fragment
name, pairing, sequence, quality and alignment fields are set, an empty
(default) next-mate-position submessage exists, and no aux data was
parsed yet. -/
theorem claim_C10_partial_record_on_error (h : List String) (b : bam1_t)
    (options : SamReaderOptions)
    (hp : b.flag &&& BAM_FPAIRED ≠ 0) (hmu : b.flag &&& BAM_FMUNMAP = 0)
    (hmt : b.mtid < 0) (hseq : b.seqNibbles ≠ []) (hq : b.quals.getD 0 0 ≠ 255)
    (hun : b.flag &&& BAM_FUNMAP = 0) :
    (ConvertToPbPure h b options).status = some mateError ∧
    (ConvertToPbPure h b options).read.fragment_name = b.qname ∧
    (ConvertToPbPure h b options).read.number_reads = 2 ∧
    (ConvertToPbPure h b options).read.aligned_sequence ≠ "" ∧
    (ConvertToPbPure h b options).read.aligned_quality ≠ [] ∧
    (ConvertToPbPure h b options).read.alignment.isSome = true ∧
    (ConvertToPbPure h b options).read.next_mate_position = some {} ∧
    (ConvertToPbPure h b options).read.info = [] := by
  have hc : ((b.flag &&& BAM_FPAIRED) != 0 && (b.flag &&& BAM_FMUNMAP) == 0) = true := by
    simp [Bool.and_eq_true, bne_iff_ne, beq_iff_eq, hp, hmu]
  have hread : (ConvertToPbPure h b options).read =
      { convAlignment h b (convSeqQual b (convBasic b)) with
        next_mate_position := some {} } := by
    simp only [ConvertToPbPure, hc, if_true, if_pos hmt]
  have hstat : (ConvertToPbPure h b options).status = some mateError := by
    simp only [ConvertToPbPure, hc, if_true, if_pos hmt]
  have hlen : b.seqNibbles.length ≠ 0 := by
    simpa [List.length_eq_zero] using hseq
  refine ⟨hstat, ?_, ?_, ?_, ?_, ?_, ?_, ?_⟩
  · rw [hread]
    show (convAlignment h b (convSeqQual b (convBasic b))).fragment_name = b.qname
    rw [convAlignment_fragment_name, convSeqQual_fragment_name]
    rfl
  · rw [hread]
    show (convAlignment h b (convSeqQual b (convBasic b))).number_reads = 2
    rw [convAlignment_number_reads, convSeqQual_number_reads, convBasic_number_reads]
    simp [bne_iff_ne, hp]
  · rw [hread]
    show (convAlignment h b (convSeqQual b (convBasic b))).aligned_sequence ≠ ""
    rw [convAlignment_aligned_sequence]
    simp only [convSeqQual, if_pos hlen, if_pos hq]
    intro hs
    have hdata := congrArg String.data hs
    simp only [String.data] at hdata
    exact hseq (by simpa using hdata)
  · rw [hread]
    show (convAlignment h b (convSeqQual b (convBasic b))).aligned_quality ≠ []
    rw [convAlignment_aligned_quality]
    simp only [convSeqQual, if_pos hlen, if_pos hq]
    simpa using hlen
  · rw [hread]
    show (convAlignment h b (convSeqQual b (convBasic b))).alignment.isSome = true
    rw [convAlignment_alignment, if_pos hun]
    rfl
  · rw [hread]
  · rw [hread]
    show (convAlignment h b (convSeqQual b (convBasic b))).info = []
    rw [convAlignment_info, convSeqQual_info]
    rfl

/-- Claim C9: Whenever the decoder's loop reaches (at cursor `s`, with the
loop guard satisfied) a 'B' typed-array field whose sub-type is
recognized and whose 4-byte little-endian element count is zero, it
fails with the data-loss error "n_elements is zero" even though a
zero-length array is structurally well-formed on the wire. -/
theorem claim_C9_zero_count_array (buf : List Nat) (s : Int) (fuel : Nat)
    (acc : List (String × AuxVal)) (t1 t2 sub : Nat)
    (hg : ¬((buf.length : Int) - s < 4))
    (h0 : auxByte buf s = some t1)
    (h1 : auxByte buf (s + 1) = some t2)
    (h2 : auxByte buf (s + 2) = some 66)
    (h3 : auxByte buf (s + 3) = some sub)
    (hsub : ¬HtslibAuxSize sub < 0)
    (hlen2 : ¬((buf.length : Int) - (s + 3 + 1) < 4))
    (hc1 : auxByte buf (s + 3 + 1) = some 0)
    (hc2 : auxByte buf (s + 3 + 2) = some 0)
    (hc3 : auxByte buf (s + 3 + 3) = some 0)
    (hc4 : auxByte buf (s + 3 + 4) = some 0) :
    parseAuxFrom buf (fuel + 1) s acc =
      ⟨acc.reverse, some (.dataLoss "n_elements is zero")⟩ := by
  simp only [parseAuxFrom]
  rw [if_neg hg, h0, h1, h2]
  dsimp only
  norm_num
  rw [h3]
  dsimp only
  rw [if_neg hsub, if_neg hlen2, hc1, hc2, hc3, hc4]
  dsimp only
  norm_num [leU32, asInt32]

/-- Witness for claim C9: the concrete aux stream `X1 B c 00 00 00 00`. -/
theorem claim_C9_witness :
    parseAuxFrom [88, 49, 66, 99, 0, 0, 0, 0] 1 0 [] =
      ⟨[], some (.dataLoss "n_elements is zero")⟩ :=
  claim_C9_zero_count_array [88, 49, 66, 99, 0, 0, 0, 0] 0 0 [] 88 49 99
    (by decide) (by decide) (by decide) (by decide) (by decide) (by decide)
    (by decide) (by decide) (by decide) (by decide) (by decide)

/-- Claim C5: For every sequence of underlying raw records, `Next()` on a live
iterable (1) returns "no more records" only on genuine end-of-stream —
every raw item was a successfully converted record (and merely rejected),
none was an error; (2) never yields a record the keep-predicate rejected:
a yielded record was accepted by `KeepRead` at the sampler state it was
checked with; (3) fails only because the underlying cursor reported a
parse error (code < -1) or a record's conversion failed — never because a
record was rejected by the keep-predicate. -/
theorem claim_C5_next_loop (h : List String) (options : SamReaderOptions)
    (reqSat : Read → Bool) (stream : List RawItem) (smp : FractionalSampler) :
    ((SamIterableBase.Next true h options reqSat stream smp).1 = .atEnd →
      ∀ it ∈ stream, ∃ b, it = RawItem.record b ∧
        (ConvertToPbPure h b options).status = none) ∧
    (∀ r, (SamIterableBase.Next true h options reqSat stream smp).1 = .yes r →
      ∃ smp1, KeepRead options reqSat smp1 r =
        (true, (SamIterableBase.Next true h options reqSat stream smp).2)) ∧
    (∀ e, (SamIterableBase.Next true h options reqSat stream smp).1 = .failure e →
      (RawItem.readError ∈ stream ∧ e = ⟨.DATA_LOSS, "Failed to parse SAM record"⟩) ∨
      (∃ b, RawItem.record b ∈ stream ∧
        (ConvertToPbPure h b options).status = some e)) := by
  have hne : SamIterableBase.Next true h options reqSat stream smp =
      nextLoop h options reqSat stream smp := rfl
  rw [hne]
  clear hne
  induction stream generalizing smp with
  | nil =>
    refine ⟨?_, ?_, ?_⟩
    · intro _ it hit
      exact absurd hit (List.not_mem_nil it)
    · intro r hr
      exact absurd hr (by simp [nextLoop])
    · intro e he
      exact absurd he (by simp [nextLoop])
  | cons it rest ih =>
    cases it with
    | readError =>
      refine ⟨?_, ?_, ?_⟩
      · intro hend
        exact absurd hend (by simp [nextLoop])
      · intro r hr
        exact absurd hr (by simp [nextLoop])
      · intro e he
        left
        refine ⟨List.mem_cons_self _ _, ?_⟩
        have : NextRes.failure ⟨.DATA_LOSS, "Failed to parse SAM record"⟩ =
            NextRes.failure e := he
        exact (NextRes.failure.inj this).symm
    | record b =>
      simp only [nextLoop]
      cases hst : (ConvertToPbPure h b options).status with
      | some e0 =>
        refine ⟨?_, ?_, ?_⟩
        · intro hend
          exact absurd hend (by simp)
        · intro r hr
          exact absurd hr (by simp)
        · intro e he
          right
          refine ⟨b, List.mem_cons_self _ _, ?_⟩
          rw [hst]
          have : NextRes.failure e0 = NextRes.failure e := he
          rw [NextRes.failure.inj this]
      | none =>
        dsimp only
        by_cases hk : (KeepRead options reqSat smp (ConvertToPbPure h b options).read).1 = true
        · rw [if_pos hk]
          refine ⟨?_, ?_, ?_⟩
          · intro hend
            exact absurd hend (by simp)
          · intro r hr
            have : NextRes.yes (ConvertToPbPure h b options).read = NextRes.yes r := hr
            obtain rfl := (NextRes.yes.inj this)
            refine ⟨smp, ?_⟩
            rw [← hk]
          · intro e he
            exact absurd he (by simp)
        · rw [if_neg hk]
          obtain ⟨ih1, ih2, ih3⟩ :=
            ih (KeepRead options reqSat smp (ConvertToPbPure h b options).read).2
          refine ⟨?_, ?_, ?_⟩
          · intro hend it hit
            rcases List.mem_cons.mp hit with rfl | hmem
            · exact ⟨b, rfl, hst⟩
            · exact ih1 hend it hmem
          · intro r hr
            exact ih2 r hr
          · intro e he
            rcases ih3 e he with ⟨hmem, hmsg⟩ | ⟨b', hmem, hconv⟩
            · exact Or.inl ⟨List.mem_cons_of_mem _ hmem, hmsg⟩
            · exact Or.inr ⟨b', List.mem_cons_of_mem _ hmem, hconv⟩

/-- Witness for claim C5: on a stream whose first raw outcome is an underlying read
error, `Next` fails with the data-loss parse error (not a rejection). -/
theorem claim_C5_witness :
    (RawItem.readError ∈ [RawItem.readError] ∧
      (⟨.DATA_LOSS, "Failed to parse SAM record"⟩ : TfError) =
        ⟨.DATA_LOSS, "Failed to parse SAM record"⟩) ∨
    (∃ b, RawItem.record b ∈ [RawItem.readError] ∧
      (ConvertToPbPure [] b {}).status =
        some ⟨.DATA_LOSS, "Failed to parse SAM record"⟩) :=
  (claim_C5_next_loop [] {} (fun _ => true) [RawItem.readError] ⟨0, 0⟩).2.2
    ⟨.DATA_LOSS, "Failed to parse SAM record"⟩ rfl

/-- Witness for claim C10: a concrete paired, mate-mapped record with `mtid = -1`,
two sequence bases and a mapped alignment. -/
theorem claim_C10_witness :
    (ConvertToPbPure ["chr1"]
        { qname := "q1", flag := 1, tid := 0, qual := 9, mtid := -1,
          seqNibbles := [1, 2], quals := [30, 31] } {}).status = some mateError ∧
    (ConvertToPbPure ["chr1"]
        { qname := "q1", flag := 1, tid := 0, qual := 9, mtid := -1,
          seqNibbles := [1, 2], quals := [30, 31] } {}).read.fragment_name = "q1" ∧
    (ConvertToPbPure ["chr1"]
        { qname := "q1", flag := 1, tid := 0, qual := 9, mtid := -1,
          seqNibbles := [1, 2], quals := [30, 31] } {}).read.number_reads = 2 ∧
    (ConvertToPbPure ["chr1"]
        { qname := "q1", flag := 1, tid := 0, qual := 9, mtid := -1,
          seqNibbles := [1, 2], quals := [30, 31] } {}).read.aligned_sequence ≠ "" ∧
    (ConvertToPbPure ["chr1"]
        { qname := "q1", flag := 1, tid := 0, qual := 9, mtid := -1,
          seqNibbles := [1, 2], quals := [30, 31] } {}).read.aligned_quality ≠ [] ∧
    (ConvertToPbPure ["chr1"]
        { qname := "q1", flag := 1, tid := 0, qual := 9, mtid := -1,
          seqNibbles := [1, 2], quals := [30, 31] } {}).read.alignment.isSome = true ∧
    (ConvertToPbPure ["chr1"]
        { qname := "q1", flag := 1, tid := 0, qual := 9, mtid := -1,
          seqNibbles := [1, 2], quals := [30, 31] } {}).read.next_mate_position =
      some {} ∧
    (ConvertToPbPure ["chr1"]
        { qname := "q1", flag := 1, tid := 0, qual := 9, mtid := -1,
          seqNibbles := [1, 2], quals := [30, 31] } {}).read.info = [] :=
  claim_C10_partial_record_on_error ["chr1"]
    { qname := "q1", flag := 1, tid := 0, qual := 9, mtid := -1,
      seqNibbles := [1, 2], quals := [30, 31] } {}
    (by decide) (by decide) (by decide) (by decide) (by decide) (by decide)

/-- With requirements disabled, KeepRead reduces to the pure downsampling
decision, independent of the record's content. -/
lemma KeepRead_no_requirements (options : SamReaderOptions) (reqSat : Read → Bool)
    (smp : FractionalSampler) (read : Read)
    (hh : options.has_read_requirements = false) :
    KeepRead options reqSat smp read =
      if options.downsample_fraction = 0 then (true, smp) else smp.Keep := by
  simp [KeepRead, hh]

/-- Claim C6: (1) With downsample fraction 1.0 (and the sampler carrying that
fraction, as the reader constructs it), every record is kept;
(2) with fraction 0.0 every record is kept through the disabled path that
returns without consulting the generator (the sampler state is unchanged);
(3) the sequence of keep/reject decisions over a run depends only on the
fraction and the seeded sampler state, not on the records — i.e. it is
reproducible across runs of equal length. -/
theorem claim_C6_downsampling :
    (∀ (options : SamReaderOptions) (reqSat : Read → Bool)
        (smp : FractionalSampler) (read : Read),
      options.has_read_requirements = false →
      options.downsample_fraction = 1 →
      smp.fraction = options.downsample_fraction →
      (KeepRead options reqSat smp read).1 = true) ∧
    (∀ (options : SamReaderOptions) (reqSat : Read → Bool)
        (smp : FractionalSampler) (read : Read),
      options.has_read_requirements = false →
      options.downsample_fraction = 0 →
      KeepRead options reqSat smp read = (true, smp)) ∧
    (∀ (options : SamReaderOptions) (reqSat : Read → Bool)
        (smp : FractionalSampler) (reads1 reads2 : List Read),
      options.has_read_requirements = false →
      reads1.length = reads2.length →
      keepSequence options reqSat smp reads1 = keepSequence options reqSat smp reads2) := by
  refine ⟨?_, ?_, ?_⟩
  · intro options reqSat smp read hh hf hsf
    rw [KeepRead_no_requirements options reqSat smp read hh, hf] at *
    rw [if_neg (by norm_num : ¬(1 : ℚ) = 0)]
    have hlt : samplerNext smp.state < 2 ^ 31 := Nat.mod_lt _ (by norm_num)
    simp only [FractionalSampler.Keep, hsf, hf, Rat.num_ofNat, Rat.den_ofNat,
      decide_eq_true_eq]
    push_cast
    omega
  · intro options reqSat smp read hh hf
    rw [KeepRead_no_requirements options reqSat smp read hh, if_pos hf]
  · intro options reqSat smp reads1 reads2 hh hlen
    induction reads1 generalizing reads2 smp with
    | nil =>
      cases reads2 with
      | nil => rfl
      | cons r2 rs2 => exact absurd hlen (by simp)
    | cons r1 rs1 ih =>
      cases reads2 with
      | nil => exact absurd hlen (by simp)
      | cons r2 rs2 =>
        simp only [keepSequence]
        rw [KeepRead_no_requirements options reqSat smp r1 hh,
          KeepRead_no_requirements options reqSat smp r2 hh]
        exact congrArg _ (ih _ _ (by simpa using hlen))

/-- Witness for claim C6: with fraction 0 a concrete record is kept and the sampler
state is untouched. -/
theorem claim_C6_witness :
    KeepRead { downsample_fraction := 0 } (fun _ => true) ⟨0, 42⟩ {} =
      (true, ⟨0, 42⟩) :=
  claim_C6_downsampling.2.1 { downsample_fraction := 0 } (fun _ => true)
    ⟨0, 42⟩ {} rfl rfl

/-- Claim C7: (1) On a closed reader (the file handle released by `Close()`),
both `Iterate` and `Query` fail with a precondition error; (2) `Query`
fails with a precondition error when no index was loaded; (3) `Query`
fails with not-found when the reference name is unknown to the header;
(4) `Query` fails with not-found when the index rejects the interval.
None of these paths crash: each returns an explicit error status. -/
theorem claim_C7_iterate_query_errors :
    (∀ (r : SamReader) (region : Range), r.fpOpen = false →
      r.Iterate = some ⟨.FAILED_PRECONDITION, "Cannot Iterate a closed SamReader."⟩ ∧
      r.Query region = some ⟨.FAILED_PRECONDITION, "Cannot Query a closed SamReader."⟩) ∧
    (∀ (r : SamReader) (region : Range), r.fpOpen = true → r.idx = none →
      r.Query region = some ⟨.FAILED_PRECONDITION, "Cannot query without an index"⟩) ∧
    (∀ (r : SamReader) (idx : hts_idx_t) (region : Range),
      r.fpOpen = true → r.idx = some idx →
      bam_name2id r.targets region.reference_name < 0 →
      r.Query region = some ⟨.NOT_FOUND, "Unknown reference_name"⟩) ∧
    (∀ (r : SamReader) (idx : hts_idx_t) (region : Range),
      r.fpOpen = true → r.idx = some idx →
      ¬bam_name2id r.targets region.reference_name < 0 →
      idx.queryValid (bam_name2id r.targets region.reference_name).toNat
        region.start region.endPos = false →
      r.Query region = some ⟨.NOT_FOUND, "region specifies an unknown reference interval"⟩) := by
  refine ⟨?_, ?_, ?_, ?_⟩
  · intro r region hfp
    constructor
    · simp [SamReader.Iterate, hfp]
    · simp [SamReader.Query, hfp]
  · intro r region hfp hidx
    simp [SamReader.Query, hfp, hidx]
  · intro r idx region hfp hidx htid
    simp [SamReader.Query, hfp, hidx, if_pos htid]
  · intro r idx region hfp hidx htid hvalid
    simp [SamReader.Query, hfp, hidx, if_neg htid, hvalid]

/-- Witness for claim C7: a closed reader rejects both entry points with the
precondition errors. -/
theorem claim_C7_witness :
    SamReader.Iterate ⟨{}, false, ["chr1"], none, ⟨0, 0⟩⟩ =
      some ⟨.FAILED_PRECONDITION, "Cannot Iterate a closed SamReader."⟩ ∧
    SamReader.Query ⟨{}, false, ["chr1"], none, ⟨0, 0⟩⟩
        { reference_name := "chr1", start := 100, endPos := 200 } =
      some ⟨.FAILED_PRECONDITION, "Cannot Query a closed SamReader."⟩ :=
  claim_C7_iterate_query_errors.1 ⟨{}, false, ["chr1"], none, ⟨0, 0⟩⟩
    { reference_name := "chr1", start := 100, endPos := 200 } rfl

/-- Counterexample for claim C8: the claim asserts header parsing is total and
never fatal, including on malformed/short tokens.  Two concrete header
texts are fatal: a read-group line whose `PI:` value is non-numeric trips
`CHECK(absl::SimpleAtoi(...))` (process abort), and an `@HD` line with a
2-character token makes `token.substr(3)` throw `std::out_of_range`. -/
theorem claim_C8_counterexample :
    parseSamHeaderText "@RG\tPI:abc".toList = .error .checkFail ∧
    parseSamHeaderText "@HD\tVN".toList = .error .outOfRange :=
  ⟨rfl, rfl⟩

lemma hdLineLoop_safe (hd : SamHeader) (warn : List String) (toks : List Str)
    (h : ∀ t ∈ toks, t = kSamHeaderTag ∨ 3 ≤ t.length) :
    ∃ out, hdLineLoop hd warn toks = .ok out := by
  induction toks generalizing hd warn with
  | nil => exact ⟨(hd, warn), rfl⟩
  | cons t ts ih =>
    have hrest : ∀ t' ∈ ts, t' = kSamHeaderTag ∨ 3 ≤ t'.length :=
      fun t' ht' => h t' (List.mem_cons_of_mem _ ht')
    by_cases he : t = kSamHeaderTag
    · simp only [hdLineLoop, if_pos he]
      exact ih hd warn hrest
    · have h3 : 3 ≤ t.length := (h t (List.mem_cons_self _ _)).resolve_left he
      simp only [hdLineLoop, if_neg he, substrFrom, if_pos h3]
      split_ifs <;> exact ih _ _ hrest

/-- An if-expression over `Except` values is ok when both branches are. -/
lemma exceptOk_ite {e a : Type} (c : Prop) [Decidable c] {x y : Except e a}
    (hx : ∃ o, x = .ok o) (hy : ∃ o, y = .ok o) :
    ∃ o, (if c then x else y) = .ok o := by
  by_cases hc : c
  · simpa [hc] using hx
  · simpa [hc] using hy

set_option maxHeartbeats 1600000 in
lemma rgLineLoop_safe (rg : ReadGroup) (warn : List String) (toks : List Str)
    (h : ∀ t ∈ toks, t = kSamReadGroupTag ∨
      (3 ≤ t.length ∧ (t.take 3 = kPITag → (SimpleAtoi (t.drop 3)).isSome = true))) :
    ∃ out, rgLineLoop rg warn toks = .ok out := by
  induction toks generalizing rg warn with
  | nil => exact ⟨(rg, warn), rfl⟩
  | cons t ts ih =>
    have hrest : ∀ t' ∈ ts, t' = kSamReadGroupTag ∨
        (3 ≤ t'.length ∧ (t'.take 3 = kPITag → (SimpleAtoi (t'.drop 3)).isSome = true)) :=
      fun t' ht' => h t' (List.mem_cons_of_mem _ ht')
    by_cases he : t = kSamReadGroupTag
    · simp only [rgLineLoop, if_pos he]
      exact ih rg warn hrest
    · obtain ⟨h3, hPI⟩ := (h t (List.mem_cons_self _ _)).resolve_left he
      simp only [rgLineLoop, if_neg he, substrFrom, if_pos h3]
      by_cases hpi : t.take 3 = kPITag
      · obtain ⟨n, hn⟩ := Option.isSome_iff_exists.mp (hPI hpi)
        rw [if_pos hpi, hn]
        dsimp only
        repeat' apply exceptOk_ite
        all_goals exact ih _ _ hrest
      · rw [if_neg hpi]
        repeat' apply exceptOk_ite
        all_goals exact ih _ _ hrest

lemma pgLineLoop_safe (pg : Program) (toks : List Str)
    (h : ∀ t ∈ toks, t = kSamProgramTag ∨ 3 ≤ t.length) :
    ∃ out, pgLineLoop pg toks = .ok out := by
  induction toks generalizing pg with
  | nil => exact ⟨pg, rfl⟩
  | cons t ts ih =>
    have hrest : ∀ t' ∈ ts, t' = kSamProgramTag ∨ 3 ≤ t'.length :=
      fun t' ht' => h t' (List.mem_cons_of_mem _ ht')
    by_cases he : t = kSamProgramTag
    · simp only [pgLineLoop, if_pos he]
      exact ih pg hrest
    · have h3 : 3 ≤ t.length := (h t (List.mem_cons_self _ _)).resolve_left he
      simp only [pgLineLoop, if_neg he, substrFrom, if_pos h3]
      split_ifs <;> exact ih _ hrest

lemma samHeaderLineStep_safe (st : SamHeader × List String) (line : Str)
    (hsafe : headerLineSafe line = true) :
    ∃ st', samHeaderLineStep st line = .ok st' := by
  by_cases h1 : line.take 3 = kSamHeaderTag
  · have htok : ∀ t ∈ strSplit '\t' line, t = kSamHeaderTag ∨ 3 ≤ t.length := by
      simp only [headerLineSafe, if_pos h1, List.all_eq_true] at hsafe
      intro t ht
      have h' := hsafe t ht
      simpa using h'
    simp only [samHeaderLineStep, if_pos h1, AddHeaderLineToHeader]
    exact hdLineLoop_safe st.1 st.2 _ htok
  · by_cases h2 : line.take 3 = kSamReferenceSequenceTag
    · exact ⟨st, by simp only [samHeaderLineStep, if_neg h1, if_pos h2]⟩
    · by_cases h3 : line.take 3 = kSamReadGroupTag
      · have htok : ∀ t ∈ strSplit '\t' line, t = kSamReadGroupTag ∨
            (3 ≤ t.length ∧ (t.take 3 = kPITag → (SimpleAtoi (t.drop 3)).isSome = true)) := by
          simp only [headerLineSafe, if_neg h1, if_neg h2, if_pos h3,
            List.all_eq_true] at hsafe
          intro t ht
          have h'' : t = kSamReadGroupTag ∨ (3 ≤ t.length ∧
              (¬(t.take 3 = kPITag) ∨ (SimpleAtoi (t.drop 3)).isSome = true)) := by
            simpa using hsafe t ht
          rcases h'' with hL | ⟨ha, hb⟩
          · exact Or.inl hL
          · exact Or.inr ⟨ha, fun hp => hb.resolve_left (not_not_intro hp)⟩
        obtain ⟨out, hout⟩ := rgLineLoop_safe {} [] (strSplit '\t' line) htok
        refine ⟨({ st.1 with read_groups := st.1.read_groups ++ [out.1] }, st.2 ++ out.2), ?_⟩
        simp only [samHeaderLineStep, if_neg h1, if_neg h2, if_pos h3,
          AddReadGroupToHeader, hout]
      · by_cases h4 : line.take 3 = kSamProgramTag
        · have htok : ∀ t ∈ strSplit '\t' line, t = kSamProgramTag ∨ 3 ≤ t.length := by
            simp only [headerLineSafe, if_neg h1, if_neg h2, if_neg h3, if_pos h4,
              List.all_eq_true] at hsafe
            intro t ht
            simpa using hsafe t ht
          obtain ⟨out, hout⟩ := pgLineLoop_safe {} (strSplit '\t' line) htok
          refine ⟨({ st.1 with programs := st.1.programs ++ [out] }, st.2), ?_⟩
          simp only [samHeaderLineStep, if_neg h1, if_neg h2, if_neg h3, if_pos h4,
            AddProgramToHeader, hout]
        · by_cases h5 : line.take 3 = kSamCommentTag
          · have hlen : 4 ≤ line.length := by
              simp only [headerLineSafe, if_neg h1, if_neg h2, if_neg h3, if_neg h4,
                if_pos h5, decide_eq_true_eq] at hsafe
              exact hsafe
            refine ⟨({ st.1 with comments := st.1.comments ++ [line.drop 4] }, st.2), ?_⟩
            simp only [samHeaderLineStep, if_neg h1, if_neg h2, if_neg h3, if_neg h4,
              if_pos h5, substrFrom, if_pos hlen]
          · exact ⟨(st.1, st.2 ++ ["Unrecognized SAM header type, ignoring"]),
              by simp only [samHeaderLineStep, if_neg h1, if_neg h2, if_neg h3,
                if_neg h4, if_neg h5]⟩

lemma samHeaderLines_safe (lines : List Str) (st : SamHeader × List String)
    (h : ∀ line ∈ lines, headerLineSafe line = true) :
    ∃ out, samHeaderLines st lines = .ok out := by
  induction lines generalizing st with
  | nil => exact ⟨st, rfl⟩
  | cons l ls ih =>
    obtain ⟨st', hst'⟩ := samHeaderLineStep_safe st l (h l (List.mem_cons_self _ _))
    simp only [samHeaderLines, hst']
    exact ih st' (fun l' hl' => h l' (List.mem_cons_of_mem _ hl'))

/-- Claim C8 as amended: unrecognized line types are ignored with a logged warning
and never fatal, and header parsing is total and produces a Header
provided every token of a recognized `@HD`/`@RG`/`@PG` line is at least
3 characters, every `@RG` `PI:` value is numeric, and every `@CO` line is
at least 4 characters long (outside those conditions parsing *is* fatal:
a failed CHECK or an uncaught `std::out_of_range`, per the
counterexample). -/
theorem claim_C8_header_parsing (text : Str)
    (hsafe : ∀ line ∈ strSplit '\n' text, headerLineSafe line = true) :
    (∃ out, parseSamHeaderText text = .ok out) ∧
    (∀ (st : SamHeader × List String) (line : Str),
      line.take 3 ≠ kSamHeaderTag → line.take 3 ≠ kSamReferenceSequenceTag →
      line.take 3 ≠ kSamReadGroupTag → line.take 3 ≠ kSamProgramTag →
      line.take 3 ≠ kSamCommentTag →
      samHeaderLineStep st line =
        .ok (st.1, st.2 ++ ["Unrecognized SAM header type, ignoring"])) := by
  constructor
  · exact samHeaderLines_safe _ _ hsafe
  · intro st line n1 n2 n3 n4 n5
    simp [samHeaderLineStep, n1, n2, n3, n4, n5]

/-- Witness for amended claim C8: a well-formed header text with one unknown line type
parses to a Header. -/
theorem claim_C8_witness :
    ∃ out, parseSamHeaderText "@HD\tVN:1.0\tSO:coordinate\n@XY\tfoo".toList = .ok out :=
  (claim_C8_header_parsing "@HD\tVN:1.0\tSO:coordinate\n@XY\tfoo".toList (by decide)).1

end Nucleus
